import Mathlib

/-!
Shallow embedding of `src/config.py` — the configuration-loading module of
the Autonomous Market Evolution Engine — together with proofs of the spec
claims about it.

Modelling conventions:
* Python floats are modelled as exact rationals (`ℚ`); decimal literals in
  the source (`0.001`, `20.0`, `0.4`, …) denote exact rationals.
* The process environment (merged with the optional `.env` override file)
  is a partial map `String → Option String`; existence of the `.env` file
  is a separate boolean in `World`.
* Python exceptions are the inductive `PyErr`; `errMsg` plays the role of
  `str(e)`.  Pydantic's `ValidationError` on a field (missing value, failed
  coercion, or a `@validator` raising `ValueError`) is `PyErr.validationError
  field msg`; we model the first failing field in declaration order.
* Loguru log calls are recorded as a list of `LogEntry`.
* Type coercion performed by pydantic `BaseSettings` (string→int,
  string→float, and JSON decoding for the list/dict fields) is modelled by
  the executable parsers below, restricted to the whitespace-free JSON
  subset.
-/

attribute [local semireducible] Rat.add Rat.sub Rat.mul Rat.inv Rat.ofScientific

/-- Model of Python's builtin `abs` on exact rationals. -/
def ratAbs (q : ℚ) : ℚ := if q < 0 then -q else q

instance {ε α : Type} [DecidableEq ε] [DecidableEq α] : DecidableEq (Except ε α)
  | .error a, .error b =>
    if h : a = b then .isTrue (h ▸ rfl) else .isFalse (fun hc => h (Except.error.inj hc))
  | .error _, .ok _ => .isFalse nofun
  | .ok _, .error _ => .isFalse nofun
  | .ok a, .ok b =>
    if h : a = b then .isTrue (h ▸ rfl) else .isFalse (fun hc => h (Except.ok.inj hc))

/-! ### String helpers -/

/-- `listStartsWith l p` : `p` is an initial segment of `l`. -/
def listStartsWith : List Char → List Char → Bool
  | _, [] => true
  | [], _ :: _ => false
  | c :: cs, p :: ps => c = p && listStartsWith cs ps

/-- `listContainsSub l p` : `p` occurs contiguously inside `l`. -/
def listContainsSub : List Char → List Char → Bool
  | l, p =>
    match l with
    | [] => p = []
    | c :: cs => listStartsWith (c :: cs) p || listContainsSub cs p

/-- Model of Python's `sub in s` substring test. -/
def strContains (s pat : String) : Bool :=
  listContainsSub s.toList pat.toList

/-! ### Coercion parsers (model of pydantic type coercion) -/

/-- Value of a digit string, most significant digit first. -/
def digitsToNat (l : List Char) : Nat :=
  l.foldl (fun a c => a * 10 + (c.toNat - 48)) 0

/-- Parse a non-empty all-digit character list as a natural number. -/
def parseNatL (l : List Char) : Option Nat :=
  if l ≠ [] ∧ l.all Char.isDigit then some (digitsToNat l) else none

/-- Parse an optional decimal point: `"20"`, `"20.5"`, `".5"`, `"1."`. -/
def parsePosRatL (l : List Char) : Option ℚ :=
  match l.splitOn '.' with
  | [i] => (parseNatL i).map (fun n => (n : ℚ))
  | [i, f] =>
      if (i ≠ [] ∨ f ≠ []) ∧ i.all Char.isDigit ∧ f.all Char.isDigit then
        some ((digitsToNat i : ℚ) + (digitsToNat f : ℚ) / (10 ^ f.length))
      else none
  | _ => none

/-- Parse a rational with optional leading minus sign. -/
def parseRatL (l : List Char) : Option ℚ :=
  match l with
  | '-' :: rest => (parsePosRatL rest).map Neg.neg
  | _ => parsePosRatL l

/-- Model of `float(s)` coercion. -/
def parseRat? (s : String) : Option ℚ :=
  parseRatL s.toList

/-- Model of `int(s)` coercion. -/
def parseInt? (s : String) : Option Int :=
  match s.toList with
  | '-' :: rest => (parseNatL rest).map (fun n => -(n : Int))
  | l => (parseNatL l).map Int.ofNat

/-- Parse a JSON string literal (no escapes, no embedded quotes). -/
def parseQuoted (l : List Char) : Option String :=
  match l with
  | '"' :: rest =>
      if rest ≠ [] ∧ rest.getLast? = some '"' ∧ rest.dropLast.all (· ≠ '"') then
        some (String.mk rest.dropLast)
      else none
  | _ => none

/-- Model of JSON decoding for `DATA_SOURCES`: a whitespace-free array of
string literals. -/
def parseStrList? (s : String) : Option (List String) :=
  match s.toList with
  | '[' :: rest =>
      if rest.getLast? = some ']' then
        let inner := rest.dropLast
        if inner = [] then some []
        else (inner.splitOn ',').mapM parseQuoted
      else none
  | _ => none

/-- Parse one `"key":value` member of a JSON object. -/
def parsePairL (l : List Char) : Option (String × ℚ) :=
  match l.splitOn ':' with
  | [k, v] => do
      let key ← parseQuoted k
      let q ← parseRatL v
      pure (key, q)
  | _ => none

/-- Model of JSON decoding for `SCORE_WEIGHTS`: a whitespace-free object
with string keys and numeric values. -/
def parseWeights? (s : String) : Option (List (String × ℚ)) :=
  match s.toList with
  | c :: rest =>
      if c = Char.ofNat 123 ∧ rest.getLast? = some (Char.ofNat 125) then
        let inner := rest.dropLast
        if inner = [] then some []
        else (inner.splitOn ',').mapM parsePairL
      else none
  | [] => none

/-! ### Data model (`EvolutionEngineConfig`) -/

/-- `sum(v.values())` for the score-weights mapping. -/
def weightSum (v : List (String × ℚ)) : ℚ :=
  (v.map Prod.snd).sum

/-- The validated configuration record declared by `EvolutionEngineConfig`
in `src/config.py`, fields in declaration order. -/
structure EvolutionEngineConfig where
  FIREBASE_PROJECT_ID : String
  FIREBASE_PRIVATE_KEY : String
  FIREBASE_CLIENT_EMAIL : String
  FIREBASE_DATABASE_URL : String
  TOURNAMENT_DAILY_SCHEDULE : String
  MAX_CONCURRENT_AGENTS : Int
  MIN_SURVIVAL_SCORE : ℚ
  DATA_SOURCES : List String
  MAX_DRAWDOWN_PERCENT : ℚ
  COMPLEXITY_TAX_RATE : ℚ
  SCORE_WEIGHTS : List (String × ℚ)
  deriving Repr, DecidableEq

/-- `@validator("MAX_DRAWDOWN_PERCENT")` from `src/config.py`: rejects
`v <= 0 or v > 100` with the source's `ValueError` message. -/
def validate_drawdown (v : ℚ) : Except String ℚ :=
  if v ≤ 0 ∨ v > 100 then
    .error "MAX_DRAWDOWN_PERCENT must be between 0 and 100"
  else .ok v

/-- `@validator("SCORE_WEIGHTS")` from `src/config.py`: rejects a mapping
whose values sum to more than `0.001` away from `1.0`. -/
def validate_weights (v : List (String × ℚ)) : Except String (List (String × ℚ)) :=
  let total := weightSum v
  if ratAbs (total - 1.0) > 0.001 then
    .error ("SCORE_WEIGHTS must sum to 1.0, got " ++ toString total)
  else .ok v

/-! ### Errors, logging, environment -/

/-- Python exceptions raised by the module.  `validationError field msg` is
pydantic's `ValidationError` blaming `field` (missing value, failed
coercion, or a `ValueError` raised by a `@validator`); `valueError` is the
wrapping `ValueError` raised by `initialize_config`; `runtimeError` is the
`RuntimeError` raised by `get_config`. -/
inductive PyErr where
  | validationError (field msg : String)
  | fileNotFoundError (msg : String)
  | valueError (msg : String)
  | runtimeError (msg : String)
  deriving Repr, DecidableEq

/-- Model of Python's `str(e)`.  For pydantic `ValidationError` we keep the
v1 header line naming the model class and the blamed field. -/
def errMsg : PyErr → String
  | .validationError f msg =>
      "1 validation error for EvolutionEngineConfig\n" ++ f ++ "\n  " ++ msg
  | .fileNotFoundError msg => msg
  | .valueError msg => msg
  | .runtimeError msg => msg

inductive LogLevel where
  | info | debug | error | critical
  deriving Repr, DecidableEq

/-- One loguru call: severity and rendered message. -/
structure LogEntry where
  level : LogLevel
  msg : String
  deriving Repr, DecidableEq

/-- The merged view of `os.environ` and the `.env` override file: a partial
map from variable names to raw string values. -/
def Env : Type := String → Option String

/-- The ambient state read by `initialize_config`: whether the `.env` file
exists, and the environment-variable map. -/
structure World where
  envFile : Bool
  env : Env

/-- Finite environment from an association list, for concrete runs. -/
def listEnv (l : List (String × String)) : Env :=
  fun k => (l.find? (fun p => p.1 = k)).map Prod.snd

/-! ### Model of `EvolutionEngineConfig()` construction (pydantic) -/

/-- A required field (`Field(...)`): absent value is a pydantic
`field required` error naming the field. -/
def requiredField (env : Env) (field : String) : Except PyErr String :=
  match env field with
  | some v => .ok v
  | none => .error (.validationError field "field required")

/-- An optional field with declared default: absent uses the default,
present is coerced by `p`; a failed coercion is a pydantic error blaming
the field with message `typeMsg`. -/
def coerce {α : Type} (field typeMsg : String) (p : String → Option α)
    (dflt : α) (env : Env) : Except PyErr α :=
  match env field with
  | none => .ok dflt
  | some raw =>
      match p raw with
      | some v => .ok v
      | none => .error (.validationError field typeMsg)

/-- The seven non-credential fields of the record, in declaration order. -/
structure OptionalFields where
  TOURNAMENT_DAILY_SCHEDULE : String
  MAX_CONCURRENT_AGENTS : Int
  MIN_SURVIVAL_SCORE : ℚ
  DATA_SOURCES : List String
  MAX_DRAWDOWN_PERCENT : ℚ
  COMPLEXITY_TAX_RATE : ℚ
  SCORE_WEIGHTS : List (String × ℚ)
  deriving Repr, DecidableEq

/-- `MAX_DRAWDOWN_PERCENT`: coerce (default `20.0`) then run
`validate_drawdown`; a validator `ValueError` becomes a pydantic error
blaming the field. -/
def getDrawdown (env : Env) : Except PyErr ℚ :=
  match coerce "MAX_DRAWDOWN_PERCENT" "value is not a valid float" parseRat? 20.0 env with
  | .error e => .error e
  | .ok v =>
      match validate_drawdown v with
      | .ok v => .ok v
      | .error m => .error (.validationError "MAX_DRAWDOWN_PERCENT" m)

/-- `SCORE_WEIGHTS`: coerce (JSON decoding, default the four fixed keys)
then run `validate_weights`. -/
def getWeights (env : Env) : Except PyErr (List (String × ℚ)) :=
  match coerce "SCORE_WEIGHTS" "value is not a valid dict" parseWeights?
      [("profitability", 0.4), ("sharpe_ratio", 0.25),
       ("max_drawdown", 0.2), ("win_rate", 0.15)] env with
  | .error e => .error e
  | .ok v =>
      match validate_weights v with
      | .ok v => .ok v
      | .error m => .error (.validationError "SCORE_WEIGHTS" m)

/-- Gather the seven optional fields in declaration order, failing on the
first pydantic error. -/
def buildOptional (env : Env) : Except PyErr OptionalFields :=
  let sched := (env "TOURNAMENT_DAILY_SCHEDULE").getD "22:00"
  match coerce "MAX_CONCURRENT_AGENTS" "value is not a valid integer" parseInt? 100 env with
  | .error e => .error e
  | .ok agents =>
  match coerce "MIN_SURVIVAL_SCORE" "value is not a valid float" parseRat? 0.0 env with
  | .error e => .error e
  | .ok minScore =>
  match coerce "DATA_SOURCES" "value is not a valid list" parseStrList?
      ["binance", "kraken", "coinbase"] env with
  | .error e => .error e
  | .ok sources =>
  match getDrawdown env with
  | .error e => .error e
  | .ok dd =>
  match coerce "COMPLEXITY_TAX_RATE" "value is not a valid float" parseRat? 0.001 env with
  | .error e => .error e
  | .ok tax =>
  match getWeights env with
  | .error e => .error e
  | .ok weights => .ok ⟨sched, agents, minScore, sources, dd, tax, weights⟩

/-- Assemble the full record from the four credentials and the rest. -/
def mkConfig (pid pk em url : String) (o : OptionalFields) : EvolutionEngineConfig :=
  ⟨pid, pk, em, url, o.TOURNAMENT_DAILY_SCHEDULE, o.MAX_CONCURRENT_AGENTS,
   o.MIN_SURVIVAL_SCORE, o.DATA_SOURCES, o.MAX_DRAWDOWN_PERCENT,
   o.COMPLEXITY_TAX_RATE, o.SCORE_WEIGHTS⟩

/-- Model of `EvolutionEngineConfig()`: read the four required credentials
then the optional fields, in declaration order, first error wins. -/
def buildConfig (env : Env) : Except PyErr EvolutionEngineConfig :=
  match requiredField env "FIREBASE_PROJECT_ID" with
  | .error e => .error e
  | .ok pid =>
  match requiredField env "FIREBASE_PRIVATE_KEY" with
  | .error e => .error e
  | .ok pk =>
  match requiredField env "FIREBASE_CLIENT_EMAIL" with
  | .error e => .error e
  | .ok em =>
  match requiredField env "FIREBASE_DATABASE_URL" with
  | .error e => .error e
  | .ok url =>
  match buildOptional env with
  | .error e => .error e
  | .ok o => .ok (mkConfig pid pk em url o)

/-! ### `initialize_config` and `get_config` -/

/-- Outcome of one `initialize_config` run: the returned-or-raised value,
the process-wide slot (`config` global) after the run, and the emitted
log entries in order. -/
structure InitResult where
  result : Except PyErr EvolutionEngineConfig
  slot : Option EvolutionEngineConfig
  logs : List LogEntry
  deriving Repr, DecidableEq

/-- The three success-path log lines of `initialize_config`. -/
def successLogs (cfg : EvolutionEngineConfig) : List LogEntry :=
  [⟨.info, "Configuration loaded successfully for project: " ++ cfg.FIREBASE_PROJECT_ID⟩,
   ⟨.debug, "Tournament schedule: " ++ cfg.TOURNAMENT_DAILY_SCHEDULE⟩,
   ⟨.debug, "Data sources: " ++ toString cfg.DATA_SOURCES⟩]

/-- The `except` block of `initialize_config`: a critical log with
`str(e)`, plus the Telegram guidance log when `"FIREBASE" in str(e)`. -/
def failureLogs (e : PyErr) : List LogEntry :=
  ⟨.critical, "Configuration initialization failed: " ++ errMsg e⟩ ::
    (if strContains (errMsg e) "FIREBASE" then
      [⟨.error, "Firebase credentials missing. Request access via Telegram emergency contact."⟩]
    else [])

/-- The message of the `FileNotFoundError` raised when `.env` is absent. -/
def missingEnvFileMsg : String :=
  ".env file not found. Create from .env.template with Firebase credentials"

/-- Model of `initialize_config()` from `src/config.py`.  The `.env`
existence check runs first; on success the global slot is set to the new
record; on any failure the slot is untouched and a wrapping `ValueError`
with the original message is raised. -/
def initialize_config (w : World) (slot : Option EvolutionEngineConfig) : InitResult :=
  if w.envFile then
    match buildConfig w.env with
    | .ok cfg => ⟨.ok cfg, some cfg, successLogs cfg⟩
    | .error e =>
        ⟨.error (.valueError ("Configuration error: " ++ errMsg e)), slot, failureLogs e⟩
  else
    let e := PyErr.fileNotFoundError missingEnvFileMsg
    ⟨.error (.valueError ("Configuration error: " ++ errMsg e)), slot,
      [⟨.error, "Missing .env file. Required environment variables:"⟩,
       ⟨.error, "FIREBASE_PROJECT_ID, FIREBASE_PRIVATE_KEY, FIREBASE_CLIENT_EMAIL"⟩]
        ++ failureLogs e⟩

/-- Outcome of one `get_config` call. -/
structure GetResult where
  result : Except PyErr EvolutionEngineConfig
  slot : Option EvolutionEngineConfig
  logs : List LogEntry
  deriving Repr, DecidableEq

/-- Model of `get_config()` from `src/config.py`: return the populated
slot directly, or make exactly one `initialize_config` attempt and wrap
its failure in a `RuntimeError`. -/
def get_config (w : World) (slot : Option EvolutionEngineConfig) : GetResult :=
  match slot with
  | some cfg => ⟨.ok cfg, some cfg, []⟩
  | none =>
      let r := initialize_config w none
      match r.result with
      | .ok cfg => ⟨.ok cfg, r.slot, r.logs⟩
      | .error e =>
          ⟨.error (.runtimeError ("Configuration not initialized and auto-init failed: " ++ errMsg e)),
           r.slot, r.logs⟩

/-- Override a single environment variable: the private key. -/
def setPrivateKey (env : Env) (v : String) : Env :=
  fun k => if k = "FIREBASE_PRIVATE_KEY" then some v else env k

/-- The declared defaults of the seven optional fields. -/
def defaultOptional : OptionalFields :=
  ⟨"22:00", 100, 0.0, ["binance", "kraken", "coinbase"], 20.0, 0.001,
   [("profitability", 0.4), ("sharpe_ratio", 0.25),
    ("max_drawdown", 0.2), ("win_rate", 0.15)]⟩

/-! ### Concrete worlds used in witnesses and counterexamples -/

/-- A concrete valid world: all four credentials plus two explicit
optional values. -/
def wC1 : World :=
  ⟨true, listEnv
    [("FIREBASE_PROJECT_ID", "amee"), ("FIREBASE_PRIVATE_KEY", "secret-key"),
     ("FIREBASE_CLIENT_EMAIL", "ops@example.com"), ("FIREBASE_DATABASE_URL", "https://db.example"),
     ("MAX_CONCURRENT_AGENTS", "7"), ("MAX_DRAWDOWN_PERCENT", "55.5")]⟩

/-- The optional fields `wC1` parses to. -/
def oC1 : OptionalFields :=
  ⟨"22:00", 7, 0.0, ["binance", "kraken", "coinbase"], mkRat 111 2, 0.001,
   [("profitability", 0.4), ("sharpe_ratio", 0.25),
    ("max_drawdown", 0.2), ("win_rate", 0.15)]⟩

/-- A world whose score weights sum to `1.1`. -/
def wC2 : World :=
  ⟨true, listEnv
    [("FIREBASE_PROJECT_ID", "amee"), ("FIREBASE_PRIVATE_KEY", "secret-key"),
     ("FIREBASE_CLIENT_EMAIL", "ops@example.com"), ("FIREBASE_DATABASE_URL", "https://db.example"),
     ("SCORE_WEIGHTS", "\x7b\"a\":0.5,\"b\":0.6\x7d")]⟩

/-- A world whose max drawdown is `150.5`, outside `(0, 100]`. -/
def wC3 : World :=
  ⟨true, listEnv
    [("FIREBASE_PROJECT_ID", "amee"), ("FIREBASE_PRIVATE_KEY", "secret-key"),
     ("FIREBASE_CLIENT_EMAIL", "ops@example.com"), ("FIREBASE_DATABASE_URL", "https://db.example"),
     ("MAX_DRAWDOWN_PERCENT", "150.5")]⟩

/-- A world with all four credentials present but bound to empty strings. -/
def wC4 : World :=
  ⟨true, listEnv
    [("FIREBASE_PROJECT_ID", ""), ("FIREBASE_PRIVATE_KEY", ""),
     ("FIREBASE_CLIENT_EMAIL", ""), ("FIREBASE_DATABASE_URL", "")]⟩

/-- A world missing `FIREBASE_PROJECT_ID` but supplying the other three
credentials. -/
def wC4m : World :=
  ⟨true, listEnv
    [("FIREBASE_PRIVATE_KEY", "k"), ("FIREBASE_CLIENT_EMAIL", "e"),
     ("FIREBASE_DATABASE_URL", "u")]⟩

/-- A world with no `.env` file at all. -/
def wNoFile : World := ⟨false, listEnv []⟩

/-! ### Helper lemmas -/

theorem initialize_config_ok {w : World} {slot : Option EvolutionEngineConfig}
    {cfg : EvolutionEngineConfig} (hf : w.envFile = true)
    (h : buildConfig w.env = .ok cfg) :
    initialize_config w slot = ⟨.ok cfg, some cfg, successLogs cfg⟩ := by
  simp only [initialize_config, hf, if_true, h]

theorem initialize_config_err {w : World} {slot : Option EvolutionEngineConfig}
    {e : PyErr} (hf : w.envFile = true) (h : buildConfig w.env = .error e) :
    initialize_config w slot =
      ⟨.error (.valueError ("Configuration error: " ++ errMsg e)), slot, failureLogs e⟩ := by
  simp only [initialize_config, hf, if_true, h]

theorem buildConfig_creds {env : Env} {pid pk em url : String}
    (h1 : env "FIREBASE_PROJECT_ID" = some pid)
    (h2 : env "FIREBASE_PRIVATE_KEY" = some pk)
    (h3 : env "FIREBASE_CLIENT_EMAIL" = some em)
    (h4 : env "FIREBASE_DATABASE_URL" = some url) :
    buildConfig env =
      match buildOptional env with
      | .error e => .error e
      | .ok o => .ok (mkConfig pid pk em url o) := by
  simp only [buildConfig, requiredField, h1, h2, h3, h4]

theorem coerce_ok_cases {α : Type} {field typeMsg : String} {p : String → Option α}
    {dflt v : α} {env : Env} (h : coerce field typeMsg p dflt env = .ok v) :
    (env field = none ∧ v = dflt) ∨ (∃ s, env field = some s ∧ p s = some v) := by
  unfold coerce at h
  split at h
  · rename_i he
    exact .inl ⟨he, (Except.ok.inj h).symm⟩
  · rename_i raw he
    split at h
    · rename_i x hp
      exact .inr ⟨raw, he, by rw [hp]; exact congrArg some (Except.ok.inj h)⟩
    · exact absurd h nofun

theorem validate_drawdown_ok_inj {v v' : ℚ} (h : validate_drawdown v = .ok v') : v' = v := by
  unfold validate_drawdown at h
  split at h
  · exact absurd h nofun
  · exact (Except.ok.inj h).symm

theorem validate_weights_ok_inj {v v' : List (String × ℚ)}
    (h : validate_weights v = .ok v') : v' = v := by
  unfold validate_weights at h
  dsimp only at h
  split at h
  · exact absurd h nofun
  · exact (Except.ok.inj h).symm

theorem getDrawdown_ok {env : Env} {v : ℚ} (h : getDrawdown env = .ok v) :
    coerce "MAX_DRAWDOWN_PERCENT" "value is not a valid float" parseRat? 20.0 env = .ok v := by
  unfold getDrawdown at h
  split at h
  · exact absurd h nofun
  · rename_i v' hc
    split at h
    · rename_i v'' hv
      rw [hc]
      exact congrArg Except.ok ((validate_drawdown_ok_inj hv).symm.trans (Except.ok.inj h))
    · exact absurd h nofun

theorem getWeights_ok {env : Env} {v : List (String × ℚ)} (h : getWeights env = .ok v) :
    coerce "SCORE_WEIGHTS" "value is not a valid dict" parseWeights?
      [("profitability", 0.4), ("sharpe_ratio", 0.25),
       ("max_drawdown", 0.2), ("win_rate", 0.15)] env = .ok v := by
  unfold getWeights at h
  split at h
  · exact absurd h nofun
  · rename_i v' hc
    split at h
    · rename_i v'' hv
      rw [hc]
      exact congrArg Except.ok ((validate_weights_ok_inj hv).symm.trans (Except.ok.inj h))
    · exact absurd h nofun

theorem buildOptional_fields {env : Env} {o : OptionalFields}
    (h : buildOptional env = .ok o) :
    o.TOURNAMENT_DAILY_SCHEDULE = (env "TOURNAMENT_DAILY_SCHEDULE").getD "22:00" ∧
    coerce "MAX_CONCURRENT_AGENTS" "value is not a valid integer" parseInt? 100 env =
      .ok o.MAX_CONCURRENT_AGENTS ∧
    coerce "MIN_SURVIVAL_SCORE" "value is not a valid float" parseRat? 0.0 env =
      .ok o.MIN_SURVIVAL_SCORE ∧
    coerce "DATA_SOURCES" "value is not a valid list" parseStrList?
      ["binance", "kraken", "coinbase"] env = .ok o.DATA_SOURCES ∧
    getDrawdown env = .ok o.MAX_DRAWDOWN_PERCENT ∧
    coerce "COMPLEXITY_TAX_RATE" "value is not a valid float" parseRat? 0.001 env =
      .ok o.COMPLEXITY_TAX_RATE ∧
    getWeights env = .ok o.SCORE_WEIGHTS := by
  unfold buildOptional at h
  split at h
  · exact absurd h nofun
  · rename_i agents hagents
    split at h
    · exact absurd h nofun
    · rename_i minScore hmin
      split at h
      · exact absurd h nofun
      · rename_i sources hsrc
        split at h
        · exact absurd h nofun
        · rename_i dd hdd
          split at h
          · exact absurd h nofun
          · rename_i tax htax
            split at h
            · exact absurd h nofun
            · rename_i weights hw
              cases Except.ok.inj h
              exact ⟨rfl, hagents, hmin, hsrc, hdd, htax, hw⟩

theorem coerce_ok_elim {α : Type} {field typeMsg : String} {p : String → Option α}
    {dflt v : α} {env : Env} (h : coerce field typeMsg p dflt env = .ok v) :
    (env field = none → v = dflt) ∧ (∀ s, env field = some s → p s = some v) := by
  rcases coerce_ok_cases h with ⟨hn, hv⟩ | ⟨s, hs, hp⟩
  · refine ⟨fun _ => hv, fun s hs => ?_⟩
    rw [hn] at hs
    exact absurd hs nofun
  · constructor
    · intro hnone
      rw [hnone] at hs
      exact absurd hs nofun
    · intro s' hs'
      rw [hs'] at hs
      cases Option.some.inj hs
      exact hp

theorem ratAbs_eq_abs (q : ℚ) : ratAbs q = |q| := by
  unfold ratAbs
  split
  · exact (abs_of_neg (by assumption)).symm
  · exact (abs_of_nonneg (not_lt.mp (by assumption))).symm

theorem validate_drawdown_default : validate_drawdown 20.0 = .ok 20.0 := by decide

theorem validate_weights_default :
    validate_weights
      [("profitability", 0.4), ("sharpe_ratio", 0.25),
       ("max_drawdown", 0.2), ("win_rate", 0.15)] =
    .ok [("profitability", 0.4), ("sharpe_ratio", 0.25),
         ("max_drawdown", 0.2), ("win_rate", 0.15)] := by decide

theorem buildOptional_only_weights {env : Env}
    (ha : env "MAX_CONCURRENT_AGENTS" = none)
    (hm : env "MIN_SURVIVAL_SCORE" = none)
    (hd : env "DATA_SOURCES" = none)
    (hp : env "MAX_DRAWDOWN_PERCENT" = none)
    (ht : env "COMPLEXITY_TAX_RATE" = none)
    {raw : String} (hw : env "SCORE_WEIGHTS" = some raw)
    {v : List (String × ℚ)} (hpv : parseWeights? raw = some v) :
    buildOptional env =
      match validate_weights v with
      | .ok v => .ok ⟨(env "TOURNAMENT_DAILY_SCHEDULE").getD "22:00", 100, 0.0,
                      ["binance", "kraken", "coinbase"], 20.0, 0.001, v⟩
      | .error m => .error (.validationError "SCORE_WEIGHTS" m) := by
  simp only [buildOptional, getDrawdown, getWeights, coerce, ha, hm, hd, hp, ht, hw, hpv,
    validate_drawdown_default]
  cases hv : validate_weights v <;> rfl

theorem buildOptional_only_drawdown {env : Env}
    (ha : env "MAX_CONCURRENT_AGENTS" = none)
    (hm : env "MIN_SURVIVAL_SCORE" = none)
    (hd : env "DATA_SOURCES" = none)
    (ht : env "COMPLEXITY_TAX_RATE" = none)
    (hw : env "SCORE_WEIGHTS" = none)
    {raw : String} (hp : env "MAX_DRAWDOWN_PERCENT" = some raw)
    {v : ℚ} (hpv : parseRat? raw = some v) :
    buildOptional env =
      match validate_drawdown v with
      | .ok v => .ok ⟨(env "TOURNAMENT_DAILY_SCHEDULE").getD "22:00", 100, 0.0,
                      ["binance", "kraken", "coinbase"], v, 0.001,
                      [("profitability", 0.4), ("sharpe_ratio", 0.25),
                       ("max_drawdown", 0.2), ("win_rate", 0.15)]⟩
      | .error m => .error (.validationError "MAX_DRAWDOWN_PERCENT" m) := by
  simp only [buildOptional, getDrawdown, getWeights, coerce, ha, hm, hd, ht, hw, hp, hpv,
    validate_weights_default]
  cases hv : validate_drawdown v <;> rfl

/-! ### Claim theorems -/

/-- Claim C1: for every environment providing the four credential
variables, `initialize_config` followed by `get_config` returns a record
whose fields equal the parsed, coerced inputs, with every absent optional
field at its declared default (`"22:00"`, `100`, `0.0`,
`["binance","kraken","coinbase"]`, `20.0`, `0.001`, and the four fixed
score weights `0.4/0.25/0.2/0.15`). -/
theorem c1_init_get_returns_parsed_fields
    (w : World) (hf : w.envFile = true)
    (pid pk em url : String)
    (h1 : w.env "FIREBASE_PROJECT_ID" = some pid)
    (h2 : w.env "FIREBASE_PRIVATE_KEY" = some pk)
    (h3 : w.env "FIREBASE_CLIENT_EMAIL" = some em)
    (h4 : w.env "FIREBASE_DATABASE_URL" = some url)
    (o : OptionalFields) (ho : buildOptional w.env = .ok o) :
    (initialize_config w none).result = .ok (mkConfig pid pk em url o) ∧
    (initialize_config w none).slot = some (mkConfig pid pk em url o) ∧
    get_config w (some (mkConfig pid pk em url o)) =
      ⟨.ok (mkConfig pid pk em url o), some (mkConfig pid pk em url o), []⟩ ∧
    o.TOURNAMENT_DAILY_SCHEDULE = (w.env "TOURNAMENT_DAILY_SCHEDULE").getD "22:00" ∧
    (w.env "MAX_CONCURRENT_AGENTS" = none → o.MAX_CONCURRENT_AGENTS = 100) ∧
    (∀ s, w.env "MAX_CONCURRENT_AGENTS" = some s → parseInt? s = some o.MAX_CONCURRENT_AGENTS) ∧
    (w.env "MIN_SURVIVAL_SCORE" = none → o.MIN_SURVIVAL_SCORE = 0.0) ∧
    (∀ s, w.env "MIN_SURVIVAL_SCORE" = some s → parseRat? s = some o.MIN_SURVIVAL_SCORE) ∧
    (w.env "DATA_SOURCES" = none → o.DATA_SOURCES = ["binance", "kraken", "coinbase"]) ∧
    (∀ s, w.env "DATA_SOURCES" = some s → parseStrList? s = some o.DATA_SOURCES) ∧
    (w.env "MAX_DRAWDOWN_PERCENT" = none → o.MAX_DRAWDOWN_PERCENT = 20.0) ∧
    (∀ s, w.env "MAX_DRAWDOWN_PERCENT" = some s → parseRat? s = some o.MAX_DRAWDOWN_PERCENT) ∧
    (w.env "COMPLEXITY_TAX_RATE" = none → o.COMPLEXITY_TAX_RATE = 0.001) ∧
    (∀ s, w.env "COMPLEXITY_TAX_RATE" = some s → parseRat? s = some o.COMPLEXITY_TAX_RATE) ∧
    (w.env "SCORE_WEIGHTS" = none → o.SCORE_WEIGHTS =
      [("profitability", 0.4), ("sharpe_ratio", 0.25),
       ("max_drawdown", 0.2), ("win_rate", 0.15)]) ∧
    (∀ s, w.env "SCORE_WEIGHTS" = some s → parseWeights? s = some o.SCORE_WEIGHTS) := by
  have hbc := buildConfig_creds h1 h2 h3 h4
  rw [ho] at hbc
  obtain ⟨hsched, hagents, hmin, hsrc, hdd, htax, hw⟩ := buildOptional_fields ho
  have hag := coerce_ok_elim hagents
  have hmn := coerce_ok_elim hmin
  have hsc := coerce_ok_elim hsrc
  have hdr := coerce_ok_elim (getDrawdown_ok hdd)
  have htx := coerce_ok_elim htax
  have hwt := coerce_ok_elim (getWeights_ok hw)
  rw [initialize_config_ok hf hbc]
  exact ⟨rfl, rfl, rfl, hsched, hag.1, hag.2, hmn.1, hmn.2, hsc.1, hsc.2,
         hdr.1, hdr.2, htx.1, htx.2, hwt.1, hwt.2⟩

theorem c1_witness :
    (initialize_config wC1 none).result =
      .ok (mkConfig "amee" "secret-key" "ops@example.com" "https://db.example" oC1) :=
  (c1_init_get_returns_parsed_fields wC1 rfl "amee" "secret-key" "ops@example.com"
    "https://db.example" rfl rfl rfl rfl oC1 (by decide)).1

theorem validate_weights_fail {v : List (String × ℚ)}
    (h : |weightSum v - 1.0| > 0.001) :
    validate_weights v =
      .error ("SCORE_WEIGHTS must sum to 1.0, got " ++ toString (weightSum v)) := by
  have hc : ratAbs (weightSum v - 1.0) > 0.001 := by rw [ratAbs_eq_abs]; exact h
  unfold validate_weights
  dsimp only
  rw [if_pos hc]

theorem validate_weights_pass {v : List (String × ℚ)}
    (h : |weightSum v - 1.0| ≤ 0.001) : validate_weights v = .ok v := by
  have hc : ¬ ratAbs (weightSum v - 1.0) > 0.001 := by
    rw [ratAbs_eq_abs]; exact not_lt.mpr h
  unfold validate_weights
  dsimp only
  rw [if_neg hc]

theorem validate_drawdown_fail {v : ℚ} (h : v ≤ 0 ∨ 100 < v) :
    validate_drawdown v = .error "MAX_DRAWDOWN_PERCENT must be between 0 and 100" := by
  unfold validate_drawdown
  rw [if_pos h]

theorem validate_drawdown_pass {v : ℚ} (h0 : 0 < v) (h100 : v ≤ 100) :
    validate_drawdown v = .ok v := by
  unfold validate_drawdown
  rw [if_neg (not_or.mpr ⟨not_le.mpr h0, not_lt.mpr h100⟩)]

/-- Claim C2: with all other fields valid, a score-weights mapping whose
values sum to `s` is rejected with a constraint-violation error stating
the weights must sum to 1.0 and reporting `s` exactly when
`|s - 1.0| > 0.001`, and accepted exactly when `|s - 1.0| ≤ 0.001`. -/
theorem c2_weights_tolerance_iff
    (w : World) (hf : w.envFile = true)
    (pid pk em url : String)
    (h1 : w.env "FIREBASE_PROJECT_ID" = some pid)
    (h2 : w.env "FIREBASE_PRIVATE_KEY" = some pk)
    (h3 : w.env "FIREBASE_CLIENT_EMAIL" = some em)
    (h4 : w.env "FIREBASE_DATABASE_URL" = some url)
    (ha : w.env "MAX_CONCURRENT_AGENTS" = none)
    (hm : w.env "MIN_SURVIVAL_SCORE" = none)
    (hd : w.env "DATA_SOURCES" = none)
    (hp : w.env "MAX_DRAWDOWN_PERCENT" = none)
    (ht : w.env "COMPLEXITY_TAX_RATE" = none)
    (raw : String) (v : List (String × ℚ))
    (hw : w.env "SCORE_WEIGHTS" = some raw)
    (hpv : parseWeights? raw = some v) :
    (|weightSum v - 1.0| > 0.001 →
      (initialize_config w none).result =
        .error (.valueError ("Configuration error: " ++
          errMsg (.validationError "SCORE_WEIGHTS"
            ("SCORE_WEIGHTS must sum to 1.0, got " ++ toString (weightSum v)))))) ∧
    (|weightSum v - 1.0| ≤ 0.001 →
      (initialize_config w none).result =
        .ok (mkConfig pid pk em url
          ⟨(w.env "TOURNAMENT_DAILY_SCHEDULE").getD "22:00", 100, 0.0,
           ["binance", "kraken", "coinbase"], 20.0, 0.001, v⟩)) := by
  have hb := buildOptional_only_weights ha hm hd hp ht hw hpv
  have hbc := buildConfig_creds h1 h2 h3 h4
  constructor
  · intro habs
    simp only [validate_weights_fail habs] at hb
    simp only [hb] at hbc
    rw [initialize_config_err hf hbc]
  · intro hle
    simp only [validate_weights_pass hle] at hb
    simp only [hb] at hbc
    rw [initialize_config_ok hf hbc]

theorem c2_witness :
    (initialize_config wC2 none).result =
      .error (.valueError ("Configuration error: " ++
        errMsg (.validationError "SCORE_WEIGHTS"
          ("SCORE_WEIGHTS must sum to 1.0, got " ++
            toString (weightSum [("a", mkRat 1 2), ("b", mkRat 3 5)]))))) :=
  (c2_weights_tolerance_iff wC2 rfl "amee" "secret-key" "ops@example.com" "https://db.example"
    rfl rfl rfl rfl rfl rfl rfl rfl rfl "\x7b\"a\":0.5,\"b\":0.6\x7d"
    [("a", mkRat 1 2), ("b", mkRat 3 5)] rfl (by decide)).1 (by decide)

/-- Claim C3: with all other fields valid, a max-drawdown value `v` is
rejected with a constraint-violation error stating the value must be
between 0 and 100 exactly when `v ≤ 0` or `v > 100`, and accepted for
every `0 < v ≤ 100`. -/
theorem c3_drawdown_range_iff
    (w : World) (hf : w.envFile = true)
    (pid pk em url : String)
    (h1 : w.env "FIREBASE_PROJECT_ID" = some pid)
    (h2 : w.env "FIREBASE_PRIVATE_KEY" = some pk)
    (h3 : w.env "FIREBASE_CLIENT_EMAIL" = some em)
    (h4 : w.env "FIREBASE_DATABASE_URL" = some url)
    (ha : w.env "MAX_CONCURRENT_AGENTS" = none)
    (hm : w.env "MIN_SURVIVAL_SCORE" = none)
    (hd : w.env "DATA_SOURCES" = none)
    (ht : w.env "COMPLEXITY_TAX_RATE" = none)
    (hw : w.env "SCORE_WEIGHTS" = none)
    (raw : String) (v : ℚ)
    (hp : w.env "MAX_DRAWDOWN_PERCENT" = some raw)
    (hpv : parseRat? raw = some v) :
    (v ≤ 0 ∨ 100 < v →
      (initialize_config w none).result =
        .error (.valueError ("Configuration error: " ++
          errMsg (.validationError "MAX_DRAWDOWN_PERCENT"
            "MAX_DRAWDOWN_PERCENT must be between 0 and 100")))) ∧
    (0 < v → v ≤ 100 →
      (initialize_config w none).result =
        .ok (mkConfig pid pk em url
          ⟨(w.env "TOURNAMENT_DAILY_SCHEDULE").getD "22:00", 100, 0.0,
           ["binance", "kraken", "coinbase"], v, 0.001,
           [("profitability", 0.4), ("sharpe_ratio", 0.25),
            ("max_drawdown", 0.2), ("win_rate", 0.15)]⟩)) := by
  have hb := buildOptional_only_drawdown ha hm hd ht hw hp hpv
  have hbc := buildConfig_creds h1 h2 h3 h4
  constructor
  · intro habs
    simp only [validate_drawdown_fail habs] at hb
    simp only [hb] at hbc
    rw [initialize_config_err hf hbc]
  · intro h0 h100
    simp only [validate_drawdown_pass h0 h100] at hb
    simp only [hb] at hbc
    rw [initialize_config_ok hf hbc]

theorem initialize_config_noFile {w : World} {slot : Option EvolutionEngineConfig}
    (hf : w.envFile = false) :
    initialize_config w slot =
      ⟨.error (.valueError ("Configuration error: " ++
          errMsg (.fileNotFoundError missingEnvFileMsg))), slot,
        [⟨.error, "Missing .env file. Required environment variables:"⟩,
         ⟨.error, "FIREBASE_PROJECT_ID, FIREBASE_PRIVATE_KEY, FIREBASE_CLIENT_EMAIL"⟩]
          ++ failureLogs (.fileNotFoundError missingEnvFileMsg)⟩ := by
  simp only [initialize_config, hf, Bool.false_eq_true, if_false]

/-- Counterexample to claim C4's emptiness clause: construction accepts
all four credential fields present but empty — no non-emptiness check
exists. -/
theorem c4_empty_credentials_accepted :
    (initialize_config wC4 none).result = .ok (mkConfig "" "" "" "" defaultOptional) ∧
    (mkConfig "" "" "" "" defaultOptional).FIREBASE_PROJECT_ID = "" := by decide

/-- Claim C4 (amended): omitting any one of the four credential variables
makes `initialize_config` fail with an error naming that variable;
supplying all four — emptiness is not checked, so even empty strings —
makes initialization succeed (optional fields valid). -/
theorem c4_missing_credential_named
    (w : World) (hf : w.envFile = true)
    (o : OptionalFields) (ho : buildOptional w.env = .ok o) :
    (w.env "FIREBASE_PROJECT_ID" = none →
      (initialize_config w none).result =
        .error (.valueError ("Configuration error: " ++
          errMsg (.validationError "FIREBASE_PROJECT_ID" "field required")))) ∧
    (∀ pid, w.env "FIREBASE_PROJECT_ID" = some pid →
      w.env "FIREBASE_PRIVATE_KEY" = none →
      (initialize_config w none).result =
        .error (.valueError ("Configuration error: " ++
          errMsg (.validationError "FIREBASE_PRIVATE_KEY" "field required")))) ∧
    (∀ pid pk, w.env "FIREBASE_PROJECT_ID" = some pid →
      w.env "FIREBASE_PRIVATE_KEY" = some pk →
      w.env "FIREBASE_CLIENT_EMAIL" = none →
      (initialize_config w none).result =
        .error (.valueError ("Configuration error: " ++
          errMsg (.validationError "FIREBASE_CLIENT_EMAIL" "field required")))) ∧
    (∀ pid pk em, w.env "FIREBASE_PROJECT_ID" = some pid →
      w.env "FIREBASE_PRIVATE_KEY" = some pk →
      w.env "FIREBASE_CLIENT_EMAIL" = some em →
      w.env "FIREBASE_DATABASE_URL" = none →
      (initialize_config w none).result =
        .error (.valueError ("Configuration error: " ++
          errMsg (.validationError "FIREBASE_DATABASE_URL" "field required")))) ∧
    (∀ pid pk em url, w.env "FIREBASE_PROJECT_ID" = some pid →
      w.env "FIREBASE_PRIVATE_KEY" = some pk →
      w.env "FIREBASE_CLIENT_EMAIL" = some em →
      w.env "FIREBASE_DATABASE_URL" = some url →
      (initialize_config w none).result = .ok (mkConfig pid pk em url o)) := by
  refine ⟨?_, ?_, ?_, ?_, ?_⟩
  · intro hn
    have hbc : buildConfig w.env =
        .error (.validationError "FIREBASE_PROJECT_ID" "field required") := by
      simp only [buildConfig, requiredField, hn]
    rw [initialize_config_err hf hbc]
  · intro pid hpid hn
    have hbc : buildConfig w.env =
        .error (.validationError "FIREBASE_PRIVATE_KEY" "field required") := by
      simp only [buildConfig, requiredField, hpid, hn]
    rw [initialize_config_err hf hbc]
  · intro pid pk hpid hpk hn
    have hbc : buildConfig w.env =
        .error (.validationError "FIREBASE_CLIENT_EMAIL" "field required") := by
      simp only [buildConfig, requiredField, hpid, hpk, hn]
    rw [initialize_config_err hf hbc]
  · intro pid pk em hpid hpk hem hn
    have hbc : buildConfig w.env =
        .error (.validationError "FIREBASE_DATABASE_URL" "field required") := by
      simp only [buildConfig, requiredField, hpid, hpk, hem, hn]
    rw [initialize_config_err hf hbc]
  · intro pid pk em url hpid hpk hem hurl
    have hbc := buildConfig_creds hpid hpk hem hurl
    rw [ho] at hbc
    rw [initialize_config_ok hf hbc]

theorem c4_witness :
    (initialize_config wC4m none).result =
      .error (.valueError ("Configuration error: " ++
        errMsg (.validationError "FIREBASE_PROJECT_ID" "field required"))) :=
  (c4_missing_credential_named wC4m rfl defaultOptional (by decide)).1 rfl

/-- Claim C5: `get_config` returns a populated slot directly; with an
empty slot it makes exactly one `initialize_config` attempt, returning
its success or wrapping its failure in an error stating that
configuration was neither pre-initialized nor auto-initializable. -/
theorem c5_get_lazy_recovery (w : World) :
    (∀ cfg, get_config w (some cfg) = ⟨.ok cfg, some cfg, []⟩) ∧
    (∀ cfg, (initialize_config w none).result = .ok cfg →
      (get_config w none).result = .ok cfg) ∧
    (∀ e, (initialize_config w none).result = .error e →
      (get_config w none).result =
        .error (.runtimeError
          ("Configuration not initialized and auto-init failed: " ++ errMsg e))) := by
  refine ⟨fun cfg => rfl, ?_, ?_⟩
  · intro cfg h
    simp only [get_config, h]
  · intro e h
    simp only [get_config, h]

theorem c5_witness :
    (get_config wNoFile none).result =
      .error (.runtimeError ("Configuration not initialized and auto-init failed: " ++
        errMsg (.valueError ("Configuration error: " ++
          errMsg (.fileNotFoundError missingEnvFileMsg))))) :=
  (c5_get_lazy_recovery wNoFile).2.2 _ rfl

/-- Claim C6: after one successful `initialize_config`, every later
`get_config` returns the stored record without reading the environment:
the results under arbitrary (even different) worlds coincide. -/
theorem c6_get_idempotent (w w1 w2 : World) (cfg : EvolutionEngineConfig)
    (h : (initialize_config w none).slot = some cfg) :
    (initialize_config w none).result = .ok cfg ∧
    get_config w1 (some cfg) = ⟨.ok cfg, some cfg, []⟩ ∧
    get_config w2 ((get_config w1 (some cfg)).slot) = ⟨.ok cfg, some cfg, []⟩ := by
  refine ⟨?_, rfl, rfl⟩
  by_cases hf : w.envFile = true
  · cases hbc : buildConfig w.env with
    | ok c =>
        rw [initialize_config_ok hf hbc] at h ⊢
        exact congrArg Except.ok (Option.some.inj h)
    | error e =>
        rw [initialize_config_err hf hbc] at h
        exact absurd h nofun
  · rw [initialize_config_noFile (Bool.not_eq_true _ ▸ hf)] at h
    exact absurd h nofun

theorem c6_witness :
    get_config wNoFile
      ((get_config wNoFile (some (mkConfig "amee" "secret-key" "ops@example.com"
        "https://db.example" oC1))).slot) =
    ⟨.ok (mkConfig "amee" "secret-key" "ops@example.com" "https://db.example" oC1),
     some (mkConfig "amee" "secret-key" "ops@example.com" "https://db.example" oC1), []⟩ :=
  (c6_get_idempotent wC1 wNoFile wNoFile _ (by decide)).2.2

/-- Claim C7: every failing `initialize_config` run raises a single
wrapping error whose message extends the original error's message, and
leaves the process-wide slot unchanged (no partial record is stored). -/
theorem c7_failure_wraps_and_preserves_slot
    (w : World) (slot : Option EvolutionEngineConfig) (e : PyErr)
    (h : (initialize_config w slot).result = .error e) :
    (∃ cause, e = .valueError ("Configuration error: " ++ errMsg cause)) ∧
    (initialize_config w slot).slot = slot := by
  by_cases hf : w.envFile = true
  · cases hbc : buildConfig w.env with
    | ok c =>
        rw [initialize_config_ok hf hbc] at h
        exact absurd h nofun
    | error e' =>
        rw [initialize_config_err hf hbc] at h
        exact ⟨⟨e', (Except.error.inj h).symm⟩, by rw [initialize_config_err hf hbc]⟩
  · have hf' : w.envFile = false := Bool.not_eq_true _ ▸ hf
    rw [initialize_config_noFile hf'] at h
    exact ⟨⟨.fileNotFoundError missingEnvFileMsg, (Except.error.inj h).symm⟩,
      by rw [initialize_config_noFile hf']⟩

theorem c7_witness :
    (∃ cause, (PyErr.valueError ("Configuration error: " ++
        errMsg (.fileNotFoundError missingEnvFileMsg))) =
      .valueError ("Configuration error: " ++ errMsg cause)) ∧
    (initialize_config wNoFile none).slot = none :=
  c7_failure_wraps_and_preserves_slot wNoFile none _ rfl

theorem c3_witness :
    (initialize_config wC3 none).result =
      .error (.valueError ("Configuration error: " ++
        errMsg (.validationError "MAX_DRAWDOWN_PERCENT"
          "MAX_DRAWDOWN_PERCENT must be between 0 and 100"))) :=
  (c3_drawdown_range_iff wC3 rfl "amee" "secret-key" "ops@example.com" "https://db.example"
    rfl rfl rfl rfl rfl rfl rfl rfl rfl "150.5" (mkRat 301 2) rfl (by decide)).1 (by decide)

/-- Counterexample to claim C8's diagnostic clause: with `.env` absent,
initialization fails, some diagnostic names `FIREBASE_PROJECT_ID`, but no
emitted log entry mentions `FIREBASE_DATABASE_URL` at all. -/
theorem c8_database_url_not_listed :
    (initialize_config wNoFile none).result =
      .error (.valueError ("Configuration error: " ++ missingEnvFileMsg)) ∧
    ((initialize_config wNoFile none).logs.any
      (fun l => strContains l.msg "FIREBASE_PROJECT_ID")) = true ∧
    ((initialize_config wNoFile none).logs.all
      (fun l => !(strContains l.msg "FIREBASE_DATABASE_URL"))) = true := by
  decide

/-- Claim C8 (amended): if the `.env` override file is absent,
`initialize_config` fails with an error wrapping the missing-file
message, and its diagnostics explicitly list `FIREBASE_PROJECT_ID`,
`FIREBASE_PRIVATE_KEY` and `FIREBASE_CLIENT_EMAIL` — but omit
`FIREBASE_DATABASE_URL`. -/
theorem c8_missing_env_file_diagnostic
    (w : World) (slot : Option EvolutionEngineConfig) (hf : w.envFile = false) :
    (initialize_config w slot).result =
      .error (.valueError ("Configuration error: " ++ missingEnvFileMsg)) ∧
    (⟨.error, "FIREBASE_PROJECT_ID, FIREBASE_PRIVATE_KEY, FIREBASE_CLIENT_EMAIL"⟩ : LogEntry) ∈
      (initialize_config w slot).logs ∧
    ∀ l ∈ (initialize_config w slot).logs,
      strContains l.msg "FIREBASE_DATABASE_URL" = false := by
  rw [initialize_config_noFile hf]
  refine ⟨rfl, ?_, ?_⟩
  · dsimp only
    decide
  · dsimp only
    decide

theorem c8_witness :
    (initialize_config wNoFile none).result =
      .error (.valueError ("Configuration error: " ++ missingEnvFileMsg)) ∧
    (⟨.error, "FIREBASE_PROJECT_ID, FIREBASE_PRIVATE_KEY, FIREBASE_CLIENT_EMAIL"⟩ : LogEntry) ∈
      (initialize_config wNoFile none).logs ∧
    ∀ l ∈ (initialize_config wNoFile none).logs,
      strContains l.msg "FIREBASE_DATABASE_URL" = false :=
  c8_missing_env_file_diagnostic wNoFile none rfl

theorem buildOptional_setPK (env : Env) (v : String) :
    buildOptional (setPrivateKey env v) = buildOptional env := by
  have h1 : setPrivateKey env v "TOURNAMENT_DAILY_SCHEDULE" =
      env "TOURNAMENT_DAILY_SCHEDULE" := rfl
  have h2 : setPrivateKey env v "MAX_CONCURRENT_AGENTS" = env "MAX_CONCURRENT_AGENTS" := rfl
  have h3 : setPrivateKey env v "MIN_SURVIVAL_SCORE" = env "MIN_SURVIVAL_SCORE" := rfl
  have h4 : setPrivateKey env v "DATA_SOURCES" = env "DATA_SOURCES" := rfl
  have h5 : setPrivateKey env v "MAX_DRAWDOWN_PERCENT" = env "MAX_DRAWDOWN_PERCENT" := rfl
  have h6 : setPrivateKey env v "COMPLEXITY_TAX_RATE" = env "COMPLEXITY_TAX_RATE" := rfl
  have h7 : setPrivateKey env v "SCORE_WEIGHTS" = env "SCORE_WEIGHTS" := rfl
  simp only [buildOptional, getDrawdown, getWeights, coerce, h1, h2, h3, h4, h5, h6, h7]

theorem buildConfig_setPK (env : Env) (v1 v2 : String)
    (h : env "FIREBASE_PRIVATE_KEY" = some v1) :
    buildConfig (setPrivateKey env v2) =
      (buildConfig env).map
        (fun c => { c with FIREBASE_PRIVATE_KEY := v2 }) := by
  have hpid : setPrivateKey env v2 "FIREBASE_PROJECT_ID" = env "FIREBASE_PROJECT_ID" := rfl
  have hem : setPrivateKey env v2 "FIREBASE_CLIENT_EMAIL" = env "FIREBASE_CLIENT_EMAIL" := rfl
  have hurl : setPrivateKey env v2 "FIREBASE_DATABASE_URL" = env "FIREBASE_DATABASE_URL" := rfl
  have hpk : setPrivateKey env v2 "FIREBASE_PRIVATE_KEY" = some v2 := rfl
  simp only [buildConfig, requiredField, hpid, hem, hurl, hpk, h, buildOptional_setPK]
  cases env "FIREBASE_PROJECT_ID" with
  | none => rfl
  | some pid =>
      cases env "FIREBASE_CLIENT_EMAIL" with
      | none => rfl
      | some em =>
          cases env "FIREBASE_DATABASE_URL" with
          | none => rfl
          | some url =>
              cases buildOptional env with
              | error e => rfl
              | ok o => rfl

/-- Claim C9: the private key never influences the emitted log sequence —
two `initialize_config` runs differing only in the value of
`FIREBASE_PRIVATE_KEY` emit identical logs. -/
theorem c9_private_key_noninterference
    (w : World) (slot : Option EvolutionEngineConfig) (v1 v2 : String)
    (h : w.env "FIREBASE_PRIVATE_KEY" = some v1) :
    (initialize_config ⟨w.envFile, setPrivateKey w.env v2⟩ slot).logs =
      (initialize_config w slot).logs := by
  by_cases hf : w.envFile = true
  · have hbc := buildConfig_setPK w.env v1 v2 h
    cases hb : buildConfig w.env with
    | error e =>
        have hbc' : buildConfig (setPrivateKey w.env v2) = .error e := by
          rw [hbc, hb]; rfl
        rw [@initialize_config_err ⟨w.envFile, setPrivateKey w.env v2⟩ slot e hf hbc',
            initialize_config_err hf hb]
    | ok cfg =>
        have hbc' : buildConfig (setPrivateKey w.env v2) =
            .ok { cfg with FIREBASE_PRIVATE_KEY := v2 } := by
          rw [hbc, hb]; rfl
        rw [@initialize_config_ok ⟨w.envFile, setPrivateKey w.env v2⟩ slot _ hf hbc',
            initialize_config_ok hf hb]
        rfl
  · have hf' : w.envFile = false := Bool.not_eq_true _ ▸ hf
    rw [@initialize_config_noFile ⟨w.envFile, setPrivateKey w.env v2⟩ slot hf',
        @initialize_config_noFile w slot hf']

theorem c9_witness :
    (initialize_config ⟨wC1.envFile, setPrivateKey wC1.env "other-secret"⟩ none).logs =
      (initialize_config wC1 none).logs :=
  c9_private_key_noninterference wC1 none "secret-key" "other-secret" rfl

theorem validate_weights_ok_iff (v : List (String × ℚ)) :
    validate_weights v = .ok v ↔ |weightSum v - 1.0| ≤ 0.001 := by
  constructor
  · intro h
    by_contra hn
    rw [validate_weights_fail (not_le.mp hn)] at h
    exact absurd h nofun
  · exact validate_weights_pass

/-- Claim C10 (implicit): the score-weights validation constrains only
the sum of the values; which keys the mapping contains is never checked,
so any key set whose values sum to within `0.001` of `1.0` is accepted. -/
theorem c10_weights_keys_unchecked :
    (∀ v : List (String × ℚ),
      validate_weights v = .ok v ↔ |weightSum v - 1.0| ≤ 0.001) ∧
    (∀ v v' : List (String × ℚ), v.map Prod.snd = v'.map Prod.snd →
      (validate_weights v = .ok v ↔ validate_weights v' = .ok v')) := by
  refine ⟨validate_weights_ok_iff, ?_⟩
  intro v v' hmap
  have hs : weightSum v = weightSum v' := by
    unfold weightSum
    rw [hmap]
  rw [validate_weights_ok_iff v, validate_weights_ok_iff v', hs]

theorem c10_witness :
    validate_weights [("arbitrary_key", (1 : ℚ))] = .ok [("arbitrary_key", 1)] :=
  (c10_weights_keys_unchecked.1 [("arbitrary_key", 1)]).mpr (by decide)
